import Mathlib

/-!
Verification of the BPY-MCP addon's protocol core (`listener.py`) and its
cross-thread task scheduler (`task_queue.py`), as a shallow embedding.

JSON/Python values are modelled by `PyVal`; `json.dumps` serializability by
`dumpsE`; the recursive checker `BPYMCPProtocol._check_json_serializable` by
`_check_json_serializable`; the guarded send path `BPYMCPProtocol.send_response`
by `send_response`; the scheduler drain loop `task_queue._runner` by
`TaskQueue._runner`; and the per-message dispatch
`BPYMCPProtocol.process_message` (with its authentication gate, handler
dispatch, and the non-streaming/streaming code-execution paths) by
`process_message`.  Client code and handler bodies are external collaborators
(the spec treats them as opaque callables), so their behaviour is supplied
by oracles: a `CodeBehavior` records the stdout writes the executed code
performed and whether it returned or raised, and a `HandlerSem` maps a handler
name and params to a result or a raised exception.
-/

/-- Model of a Python value as it can appear in a request, a response, or a
handler result.  `pyobj tname` stands for an arbitrary non-JSON-serializable
host object whose `type(...).__name__` is `tname`. -/
inductive PyVal where
  | pynone
  | pybool (b : Bool)
  | pyint (n : Int)
  | pystr (s : String)
  | pylist (xs : List PyVal)
  | pytuple (xs : List PyVal)
  | pydict (kvs : List (PyVal × PyVal))
  | pyset (xs : List PyVal)
  | pyobj (tname : String)

open PyVal

/-- Python `type(v).__name__` for the modelled values. -/
def typeName : PyVal → String
  | .pynone => "NoneType"
  | .pybool _ => "bool"
  | .pyint _ => "int"
  | .pystr _ => "str"
  | .pylist _ => "list"
  | .pytuple _ => "tuple"
  | .pydict _ => "dict"
  | .pyset _ => "set"
  | .pyobj t => t

mutual

/-- Python `repr` of the modelled values (string escaping simplified to plain
quoting; only used to build the checker's diagnostic paths). -/
def pyRepr : PyVal → String
  | .pynone => "None"
  | .pybool b => if b then "True" else "False"
  | .pyint n => toString n
  | .pystr s => "'" ++ s ++ "'"
  | .pylist xs => "[" ++ reprItems xs ++ "]"
  | .pytuple [x] => "(" ++ pyRepr x ++ ",)"
  | .pytuple xs => "(" ++ reprItems xs ++ ")"
  | .pydict kvs => "\x7b" ++ reprPairs kvs ++ "\x7d"
  | .pyset [] => "set()"
  | .pyset xs => "\x7b" ++ reprItems xs ++ "\x7d"
  | .pyobj t => "<" ++ t ++ " object>"
termination_by structural v => v

def reprItems : List PyVal → String
  | [] => ""
  | [x] => pyRepr x
  | x :: y :: xs => pyRepr x ++ ", " ++ reprItems (y :: xs)
termination_by structural xs => xs

def reprPairs : List (PyVal × PyVal) → String
  | [] => ""
  | [(k, v)] => pyRepr k ++ ": " ++ pyRepr v
  | (k, v) :: p :: rest => pyRepr k ++ ": " ++ pyRepr v ++ ", " ++ reprPairs (p :: rest)
termination_by structural kvs => kvs

end

mutual

/-- Outcome of Python `json.dumps` on a value: `.ok ()` when it serializes,
`.error msg` with the encoder's `TypeError` message when it does not.  A
`dict` serializes when every key is a `str`/`int`/`bool`/`None` scalar and
every value serialize; a `set` or an opaque object never does; a `tuple` is
encoded like a `list` (so a tuple is a legal *value* but not a legal dict
key). -/
def dumpsE : PyVal → Except String Unit
  | .pynone => .ok ()
  | .pybool _ => .ok ()
  | .pyint _ => .ok ()
  | .pystr _ => .ok ()
  | .pylist xs => dumpsItems xs
  | .pytuple xs => dumpsItems xs
  | .pydict kvs => dumpsPairs kvs
  | .pyset _ => .error "Object of type set is not JSON serializable"
  | .pyobj t => .error ("Object of type " ++ t ++ " is not JSON serializable")

def dumpsItems : List PyVal → Except String Unit
  | [] => .ok ()
  | x :: xs =>
    match dumpsE x with
    | .error e => .error e
    | .ok _ => dumpsItems xs

def dumpsPairs : List (PyVal × PyVal) → Except String Unit
  | [] => .ok ()
  | (k, v) :: rest =>
    match k with
    | .pynone | .pybool _ | .pyint _ | .pystr _ =>
      match dumpsE v with
      | .error e => .error e
      | .ok _ => dumpsPairs rest
    | bad => .error ("keys must be str, int, float, bool or None, not " ++ typeName bad)

end

mutual

/-- Embedding of `BPYMCPProtocol._check_json_serializable` (listener.py
1023-1056): first try `json.dumps` on the whole object; on failure descend to
localize the offending part, reporting its path and type.  Returns `none` when
the method returns normally and `some msg` when it raises `TypeError(msg)`.
Note the method can return normally on an unserializable dict whose only
problem is a non-scalar key that itself dumps fine (e.g. a tuple key): the
per-key probe `json.dumps(key)` succeeds and the value recursion finds
nothing. -/
def _check_json_serializable : PyVal → String → Option String
  | .pynone, _ => none
  | .pybool _, _ => none
  | .pyint _, _ => none
  | .pystr _, _ => none
  | .pylist xs, path =>
    match dumpsItems xs with
    | .ok _ => none
    | .error _ => locateItems xs path 0
  | .pytuple xs, path =>
    match dumpsItems xs with
    | .ok _ => none
    | .error _ => locateItems xs path 0
  | .pydict kvs, path =>
    match dumpsPairs kvs with
    | .ok _ => none
    | .error _ => locatePairs kvs path
  | .pyset _, path =>
    some ("Non-serializable object at path '" ++ path ++ "': type set (sets are not JSON serializable)")
  | .pyobj t, path =>
    some ("Non-serializable object at path '" ++ path ++ "': type " ++ t)
termination_by structural v _ => v

def locatePairs : List (PyVal × PyVal) → String → Option String
  | [], _ => none
  | (k, v) :: rest, path =>
    match dumpsE k with
    | .error _ =>
      some ("Non-serializable key at path '" ++ path ++ "[" ++ pyRepr k ++ "]': type " ++ typeName k)
    | .ok _ =>
      match _check_json_serializable v (path ++ "[" ++ pyRepr k ++ "]") with
      | some e => some e
      | none => locatePairs rest path
termination_by structural kvs _ => kvs

def locateItems : List PyVal → String → Nat → Option String
  | [], _, _ => none
  | x :: xs, path, i =>
    match _check_json_serializable x (path ++ "[" ++ toString i ++ "]") with
    | some e => some e
    | none => locateItems xs path (i + 1)
termination_by structural xs _ _ => xs

end

def dictGetPairs : List (PyVal × PyVal) → String → Option PyVal
  | [], _ => none
  | (k, v) :: rest, key =>
    match k with
    | .pystr s => if s = key then some v else dictGetPairs rest key
    | _ => dictGetPairs rest key

/-- Python `dict.get` with a string key on a modelled value (non-dicts and
non-`str` keys never match a string key). -/
def dictGet : PyVal → String → Option PyVal
  | .pydict kvs, key => dictGetPairs kvs key
  | _, _ => none

/-- What `send_response` did with a frame: wrote the original payload, wrote
the fallback error payload instead, or (both serializations failing) logged
and wrote nothing. -/
inductive SendOutcome where
  | sent (frame : PyVal)
  | sentFallback (frame : PyVal)
  | dropped (logMsg : String)

/-- The fallback minimal error response built in `send_response`
(listener.py 1078-1083): `response.get('id', 'unknown')` plus the
serialization error text. -/
def fallback_response (response : PyVal) (emsg : String) : PyVal :=
  pydict [(pystr "id", (dictGet response "id").getD (pystr "unknown")),
          (pystr "output", pynone),
          (pystr "error", pystr ("JSON serialization error: " ++ emsg)),
          (pystr "stream_end", pybool true)]

/-- Embedding of `BPYMCPProtocol.send_response` (listener.py 1058-1097): run
the recursive serializability check, then `json.dumps`; a `TypeError` from
either is caught and answered with the fallback error response, itself
re-serialized — if that also fails, the failure is only printed and nothing is
written on the connection. -/
def send_response (response : PyVal) : SendOutcome :=
  let raised : Option String :=
    match _check_json_serializable response "root" with
    | some e => some e
    | none =>
      match dumpsE response with
      | .ok _ => none
      | .error e => some e
  match raised with
  | none => .sent response
  | some e =>
    let fb := fallback_response response e
    match dumpsE fb with
    | .ok _ => .sentFallback fb
    | .error e2 => .dropped e2

namespace TaskQueue

/-- A Python exception, as the pair `type(e).__name__` / `str(e)`. -/
structure PyExc where
  ename : String
  emsg : String

/-- One scheduled task as the drain loop sees it: the identity of its future,
whether that future was cancelled before the drain reached it, and the outcome
of calling `func()` on the host thread (a value or a raised exception). -/
structure Task where
  tid : Nat
  cancelled : Bool
  work : Except PyExc PyVal

/-- How a future got resolved: `fut.set_result` or `fut.set_exception`. -/
inductive Resolution where
  | value (v : PyVal)
  | exception (e : PyExc)

/-- Resolution performed for an executed task: `fut.set_result(func())` on
normal return, `fut.set_exception(exc)` on a raise (task_queue.py 25-28). -/
def resolveWork : Except PyExc PyVal → Resolution
  | .ok v => .value v
  | .error e => .exception e

/-- Embedding of `task_queue._runner` (task_queue.py 20-31): pop tasks until
the queue is empty; skip a task whose future is cancelled; otherwise run it
and resolve its future with the result or the caught exception, then continue
with the rest of the queue. -/
def _runner : List Task → List (Nat × Resolution)
  | [] => []
  | t :: ts =>
    if t.cancelled then _runner ts
    else (t.tid, resolveWork t.work) :: _runner ts

/-- Embedding of `task_queue.submit` (task_queue.py 33-40): append the task at
the tail of the process-wide FIFO queue. -/
def submit (q : List Task) (t : Task) : List Task := q ++ [t]

/-- The queue contents after a sequence of `submit` calls starting empty. -/
def submitAll (ts : List Task) : List Task := ts.foldl submit []

theorem submitAll_eq (ts : List Task) : submitAll ts = ts := by
  have h : ∀ acc : List Task, ts.foldl submit acc = acc ++ ts := by
    induction ts with
    | nil => intro acc; simp [List.foldl]
    | cons t ts ih => intro acc; simp [List.foldl, submit, ih, List.append_assoc]
  simpa [submitAll] using h []

end TaskQueue

/-- Drops trailing newline characters, Python `s.rstrip('\n')`
(listener.py 984). -/
def rstripNL (s : String) : String :=
  ⟨(s.data.reverse.dropWhile (· = '\n')).reverse⟩

/-- Characters stripped by Python `str.strip()` (ASCII whitespace). -/
def isPyWS (c : Char) : Bool :=
  c = ' ' || c = '\t' || c = '\n' || c = '\r' || c = '\x0b' || c = '\x0c'

/-- Python `s.strip()`. -/
def pyStrip (s : String) : String :=
  ⟨((s.data.dropWhile isPyWS).reverse.dropWhile isPyWS).reverse⟩

/-- Python truthiness of a modelled value, for `if stream:` and
`if _current_token and ...`. -/
def pyTruthy : PyVal → Bool
  | .pynone => false
  | .pybool b => b
  | .pyint n => n != 0
  | .pystr s => s != ""
  | .pylist xs => !xs.isEmpty
  | .pytuple xs => !xs.isEmpty
  | .pydict kvs => !kvs.isEmpty
  | .pyset xs => !xs.isEmpty
  | .pyobj _ => true

/-- Python `v != t` for a string `t`, negated: a non-`str` value never equals
a string (used for `message['token'] != _current_token`). -/
def pyEqStr : PyVal → String → Bool
  | .pystr s, t => s == t
  | _, _ => false

/-- Python `str(v)`: identity on strings, `repr` on the other modelled values
(these agree for the types modelled here). -/
def pyToStr : PyVal → String
  | .pystr s => s
  | v => pyRepr v

/-- First-match lookup of a string field in a parsed JSON object, Python
`message['k']` / `'k' in message`. -/
def lookupKey : List (String × PyVal) → String → Option PyVal
  | [], _ => none
  | (k, v) :: rest, key => if k = key then some v else lookupKey rest key

/-- Server-side configuration visible to one connection: the token generated
at server start (`_current_token`, `None` when token auth is disabled) and
`bpy.app.version_string` reported by the auth acknowledgement. -/
structure Config where
  token : Option String
  blenderVersion : String

/-- Where the process-wide `sys.stdout` currently points: Blender's real
stream, the `io.StringIO` installed by the non-streaming `execute_code`, or
the `StreamingCapture` installed by `execute_code_streaming`. -/
inductive Std where
  | real
  | execCapture
  | streamCapture

/-- Per-connection state (`BPYMCPProtocol.authenticated`) together with the
process-wide `sys.stdout` binding the executes mutate. -/
structure ConnState where
  authenticated : Bool
  stdout : Std

/-- One framed message after the read loop decoded it: either the payload
failed `json.loads` (with the decoder message) or it parsed to a JSON
object. -/
inductive Incoming where
  | invalid (emsg : String)
  | msg (fields : List (String × PyVal))

/-- Observable behaviour of one run of a client-supplied code string: the
sequence of `sys.stdout.write` payloads it performed, and `none` when `exec`
returned normally or `some exc` when it raised. -/
structure CodeBehavior where
  writes : List String
  outcome : Option TaskQueue.PyExc

/-- Result dict every routed handler body returns: its `output`, `error` and
`result` entries. -/
structure HandlerResult where
  output : PyVal
  error : PyVal
  result : PyVal

/-- Oracle for the code-execution sandbox: behaviour of each code string. -/
abbrev CodeSem := String → CodeBehavior

/-- Oracle for the handler registry: a handler body either returns its result
dict or raises. -/
abbrev HandlerSem := String → PyVal → Except TaskQueue.PyExc HandlerResult

/-- Observable scheduling/execution effects of processing one message.
`submitTask` is a call to `task_queue.submit`; `hostExec`/`hostHandler` are
work performed inside the submitted task, hence on Blender's main thread;
`ioExec` is an `exec` of client code performed directly inside the connection
coroutine on the server's background thread; `wrote` is a frame passed to
`send_response` by the streaming path. -/
inductive Event where
  | submitTask
  | hostExec (code : String)
  | hostHandler (name : String)
  | ioExec (code : String)
  | wrote (o : SendOutcome)

/-- The guard of `StreamingCapture.write` (listener.py 981), Python
`if s and s.strip():`. -/
def nonBlankWrite (s : String) : Bool := s != "" && pyStrip s != ""

/-- The chunk frame built for one forwarded write (listener.py 982-986). -/
def chunkFrame (mid : PyVal) (s : String) : PyVal :=
  pydict [(pystr "id", mid), (pystr "chunk", pystr (rstripNL s)),
          (pystr "stream_end", pybool false)]

/-- Embedding of `StreamingCapture.write` (listener.py 980-989): a write whose
payload is non-empty and not whitespace-only is wrapped into a chunk response
(trailing newlines stripped, `stream_end: false`) and scheduled for sending;
any other write is swallowed. -/
def StreamingCapture_write (mid : PyVal) (s : String) : Option PyVal :=
  if nonBlankWrite s then some (chunkFrame mid s) else none

/-- The terminal frame of a streaming execution (listener.py 1002-1008 on
success, 1015-1020 on a raise). -/
def streamTerminal (mid : PyVal) (outcome : Option TaskQueue.PyExc) : PyVal :=
  match outcome with
  | none => pydict [(pystr "id", mid), (pystr "output", pystr ""),
                    (pystr "error", pynone), (pystr "stream_end", pybool true)]
  | some e => pydict [(pystr "id", mid), (pystr "output", pynone),
                      (pystr "error", pystr (e.ename ++ ": " ++ e.emsg)),
                      (pystr "stream_end", pybool true)]

/-- Embedding of `BPYMCPProtocol.execute_code_streaming` (listener.py
898-1021, `bpy` present): install a `StreamingCapture`, `exec` the code
directly in the connection coroutine, then send exactly one terminal frame —
from inside the `try` on success, from the `except` on a raise.  Each chunk
frame is handed to `send_response` via `asyncio.create_task` (fire-and-forget,
in write order); the terminal frame is awaited on `send_response` directly.
The list records the frames in the order they were passed to the send path. -/
def execute_code_streaming (mid : PyVal) (beh : CodeBehavior) : List SendOutcome :=
  (beh.writes.filterMap (StreamingCapture_write mid)).map send_response
    ++ [send_response (streamTerminal mid beh.outcome)]

/-- The error response of the inner handler `except` (listener.py 142-148). -/
def handlerFailed (mid : PyVal) (name : String) (emsg : String) : PyVal :=
  pydict [(pystr "id", mid), (pystr "output", pynone),
          (pystr "error", pystr ("Handler '" ++ name ++ "' failed: " ++ emsg)),
          (pystr "stream_end", pybool true)]

/-- The success response the dispatcher builds from a handler result dict
(listener.py 135-141). -/
def handlerBuiltResp (mid : PyVal) (hr : HandlerResult) : PyVal :=
  pydict [(pystr "id", mid), (pystr "output", hr.output),
          (pystr "error", hr.error), (pystr "result", hr.result),
          (pystr "stream_end", pybool true)]

/-- Wire response of the handler branch (listener.py 128-148): the success
response is serialized directly by `json.dumps`; a `TypeError` there, like any
exception from the handler body or the unknown-handler `ValueError`, is caught
by the inner `except` and reported as a `Handler ... failed` response. -/
def handler_wire_response (mid : PyVal) (name : String)
    (r : Except TaskQueue.PyExc HandlerResult) : PyVal :=
  match r with
  | .error e => handlerFailed mid name e.emsg
  | .ok hr =>
    match dumpsE (handlerBuiltResp mid hr) with
    | .ok _ => handlerBuiltResp mid hr
    | .error em => handlerFailed mid name em

/-- The handler names `execute_handler` routes (listener.py 197-209); any
other name raises `ValueError(f"Unknown handler: {name}")` before any task is
submitted. -/
def knownHandlers : List String :=
  ["list_objects", "inspect_addon", "reload_addon", "list_node_groups",
   "get_node_group_info"]

/-- Embedding of `BPYMCPProtocol.execute_handler` (listener.py 187-214, `bpy`
present): a known handler's body is submitted to the task queue and runs on
the host thread; an unknown name raises without touching the queue. -/
def execute_handler (hsem : HandlerSem) (name : String) (params : PyVal) :
    Except TaskQueue.PyExc HandlerResult × List Event :=
  if name ∈ knownHandlers then
    (hsem name params, [Event.submitTask, Event.hostHandler name])
  else
    (.error ⟨"ValueError", "Unknown handler: " ++ name⟩, [])

/-- Result of processing one message: the connection/process state afterwards,
the synchronous response (`none` for the streaming path, which sends its own
frames), and the scheduling/execution events. -/
structure PMResult where
  state : ConnState
  response : Option PyVal
  events : List Event

/-- The `if _current_token and message['token'] != _current_token` test
(listener.py 110): only a configured non-empty token is compared. -/
def tokenMismatch : Option String → PyVal → Bool
  | some t, tok => t != "" && !(pyEqStr tok t)
  | none, _ => false

/-- Response to an unauthenticated message without a `token` field
(listener.py 104-108). -/
def authRequiredResp (mid : PyVal) : PyVal :=
  pydict [(pystr "id", mid),
          (pystr "error", pystr "Authentication required: missing token"),
          (pystr "authenticated", pybool false)]

/-- Response to an unauthenticated message with a wrong token
(listener.py 111-115). -/
def authFailedResp (mid : PyVal) : PyVal :=
  pydict [(pystr "id", mid),
          (pystr "error", pystr "Authentication failed: invalid token"),
          (pystr "authenticated", pybool false)]

/-- Acknowledgement returned when an authenticating message carries neither
`code` nor `handler` (listener.py 121-125). -/
def authAckResp (mid : PyVal) (blenderVersion : String) : PyVal :=
  pydict [(pystr "id", mid),
          (pystr "authenticated", pybool true),
          (pystr "blender_version", pystr blenderVersion)]

/-- Error response for a request with neither `code` nor `handler`
(listener.py 171-174). -/
def missingFieldResp (mid : PyVal) : PyVal :=
  pydict [(pystr "id", mid),
          (pystr "error", pystr "Missing required field: either \"code\" or \"handler\"")]

/-- Response produced by the dispatcher's outer `except Exception`
(listener.py 182-185): the generic internal-error frame with a null id. -/
def internalErrorResp (emsg : String) : PyVal :=
  pydict [(pystr "error", pystr ("Internal error: " ++ emsg)), (pystr "id", pynone)]

/-- Dispatch of an authenticated (or auth-passed) message (listener.py
127-174), taking the extracted `handler`, `code`, `stream` and `params`
fields.  `handler` has precedence over `code`.  The non-streaming code path
submits `_do_exec` to the task queue; `_do_exec` replaces `sys.stdout` with a
fresh `StringIO` before `exec` and never restores it, and an exception from
`exec` propagates out of the future into the dispatcher's outer `except`,
which answers `\x7b'error': 'Internal error: ...', 'id': None\x7d`.  The
streaming path runs `exec` directly in the coroutine and returns no
synchronous response; its `finally` restores `sys.stdout`. -/
def dispatch (csem : CodeSem) (hsem : HandlerSem) (st : ConnState) (mid : PyVal)
    (handlerV codeV streamV paramsV : Option PyVal) : PMResult :=
  match handlerV with
  | some hv =>
    let hname := pyToStr hv
    let res := execute_handler hsem hname (paramsV.getD (pydict []))
    ⟨st, some (handler_wire_response mid hname res.1), res.2⟩
  | none =>
    match codeV with
    | some cv =>
      let code := pyToStr cv
      let beh := csem code
      if pyTruthy (streamV.getD (pybool false)) then
        ⟨st, none, Event.ioExec code :: (execute_code_streaming mid beh).map Event.wrote⟩
      else
        match beh.outcome with
        | none =>
          ⟨{ st with stdout := Std.execCapture },
           some (pydict [(pystr "id", mid),
                         (pystr "output", pystr (String.join beh.writes)),
                         (pystr "error", pynone), (pystr "stream_end", pybool true)]),
           [Event.submitTask, Event.hostExec code]⟩
        | some e =>
          ⟨{ st with stdout := Std.execCapture },
           some (internalErrorResp e.emsg),
           [Event.submitTask, Event.hostExec code]⟩
    | none => ⟨st, some (missingFieldResp mid), []⟩

/-- Embedding of `BPYMCPProtocol.process_message` (listener.py 87-185, `bpy`
present): parse failure and missing `id` answer with `id: null`; an
unauthenticated connection requires a `token` field and, when a token is
configured, a matching value, flipping `authenticated` on success; a message
that authenticated and carries neither `code` nor `handler` short-circuits
into the acknowledgement; otherwise the message is dispatched. -/
def process_message (cfg : Config) (csem : CodeSem) (hsem : HandlerSem)
    (st : ConnState) (inc : Incoming) : PMResult :=
  match inc with
  | .invalid emsg =>
    ⟨st, some (pydict [(pystr "error", pystr ("Invalid JSON: " ++ emsg)),
                       (pystr "id", pynone)]), []⟩
  | .msg m =>
    match lookupKey m "id" with
    | none =>
      ⟨st, some (pydict [(pystr "error", pystr "Missing required field: id"),
                         (pystr "id", pynone)]), []⟩
    | some mid =>
      if st.authenticated then
        dispatch csem hsem st mid (lookupKey m "handler") (lookupKey m "code")
          (lookupKey m "stream") (lookupKey m "params")
      else
        match lookupKey m "token" with
        | none => ⟨st, some (authRequiredResp mid), []⟩
        | some tok =>
          if tokenMismatch cfg.token tok then
            ⟨st, some (authFailedResp mid), []⟩
          else
            let st1 := { st with authenticated := true }
            if (lookupKey m "code").isNone && (lookupKey m "handler").isNone then
              ⟨st1, some (authAckResp mid cfg.blenderVersion), []⟩
            else
              dispatch csem hsem st1 mid (lookupKey m "handler") (lookupKey m "code")
                (lookupKey m "stream") (lookupKey m "params")

/-- Result of running a whole connection: the synchronous responses written
back in order, all events, and the final state. -/
structure ConnRun where
  responses : List (Option PyVal)
  events : List Event
  final : ConnState

/-- Embedding of the read loop of `BPYMCPProtocol.handle_connection`
(listener.py 54-76): process each decoded frame in order, writing each
non-empty response before reading the next frame; the connection closes when
the peer stops sending (end of the list). -/
def handle_connection (cfg : Config) (csem : CodeSem) (hsem : HandlerSem) :
    ConnState → List Incoming → ConnRun
  | st, [] => ⟨[], [], st⟩
  | st, i :: rest =>
    let r := process_message cfg csem hsem st i
    let k := handle_connection cfg csem hsem r.state rest
    ⟨r.response :: k.responses, r.events ++ k.events, k.final⟩

/-- The frame a send outcome actually put on the wire, if any. -/
def writtenFrame : SendOutcome → Option PyVal
  | .sent f => some f
  | .sentFallback f => some f
  | .dropped _ => none

/-- A written frame carrying `stream_end: false`, i.e. a chunk message. -/
def isChunkFrame (o : SendOutcome) : Bool :=
  match writtenFrame o with
  | some f =>
    match dictGet f "stream_end" with
    | some (.pybool false) => true
    | _ => false
  | none => false

/-- A written frame carrying `stream_end: true`, i.e. a terminal message. -/
def isTerminalFrame (o : SendOutcome) : Bool :=
  match writtenFrame o with
  | some f =>
    match dictGet f "stream_end" with
    | some (.pybool true) => true
    | _ => false
  | none => false

/-- The `chunk` text of a written frame, if any. -/
def chunkTextOf (o : SendOutcome) : Option String :=
  match writtenFrame o with
  | some f =>
    match dictGet f "chunk" with
    | some (.pystr s) => some s
    | _ => none
  | none => none

/-- Lines of a character stream under Python `text.split(chr(10))`. -/
def linesOf : List Char → List (List Char)
  | [] => [[]]
  | c :: rest =>
    if c = '\n' then [] :: linesOf rest
    else
      match linesOf rest with
      | l :: ls => (c :: l) :: ls
      | [] => [[c]]

/-- Number of non-empty lines in the concatenation of a list of stdout
writes. -/
def nonEmptyLineCount (writes : List String) : Nat :=
  ((linesOf (String.join writes).data).filter (fun l => !l.isEmpty)).length

/-- A server configuration with token auth enabled, used by the concrete
scenarios below. -/
def cfg0 : Config := ⟨some "tok123", "4.2.0"⟩

/-- Code oracle for code that writes nothing and returns normally. -/
def csem0 : CodeSem := fun _ => ⟨[], none⟩

/-- Handler oracle whose bodies return an empty result. -/
def hsem0 : HandlerSem := fun _ _ => .ok ⟨pystr "", pynone, pynone⟩

/-- C2: for every sequence of tasks passed to `submit`, the drain routine
`_runner` executes them in exactly the order they were submitted (the FIFO
queue built by `submit` is drained front to back by the single consumer), and
each task's future is resolved exactly once — the i-th submitted task receives
exactly the i-th resolution, which is a value exactly when its work returned
and an exception exactly when it raised, never both.  Stated for tasks whose
futures were not cancelled before the drain reached them (a cancelled future
is skipped by design, listener spec §5). -/
theorem runner_executes_in_submission_order_and_resolves_once
    (tasks : List TaskQueue.Task)
    (h : ∀ t ∈ tasks, t.cancelled = false) :
    TaskQueue._runner (TaskQueue.submitAll tasks)
        = tasks.map (fun t => (t.tid, TaskQueue.resolveWork t.work))
    ∧ ∀ p ∈ TaskQueue._runner (TaskQueue.submitAll tasks),
        ((∃ v, p.2 = TaskQueue.Resolution.value v)
          ∨ (∃ e, p.2 = TaskQueue.Resolution.exception e))
        ∧ ¬ ((∃ v, p.2 = TaskQueue.Resolution.value v)
              ∧ (∃ e, p.2 = TaskQueue.Resolution.exception e)) := by
  rw [TaskQueue.submitAll_eq]
  constructor
  · induction tasks with
    | nil => rfl
    | cons t ts ih =>
      have ht := h t (by simp)
      have ih2 := ih (fun x hx => h x (by simp [hx]))
      simp [TaskQueue._runner, ht, ih2]
  · intro p _
    constructor
    · cases hp : p.2 with
      | value v => exact Or.inl ⟨v, rfl⟩
      | exception e => exact Or.inr ⟨e, rfl⟩
    · rintro ⟨⟨v, hv⟩, ⟨e, he⟩⟩
      rw [hv] at he
      exact TaskQueue.Resolution.noConfusion he

/-- Demo task whose work returns a value. -/
def demoOk : TaskQueue.Task := ⟨0, false, .ok (pyint 1)⟩

/-- Demo task whose work raises. -/
def demoErr : TaskQueue.Task := ⟨1, false, .error ⟨"ValueError", "boom"⟩⟩

/-- Second demo task whose work returns a value. -/
def demoOk2 : TaskQueue.Task := ⟨2, false, .ok (pyint 2)⟩

/-- Witness for C2 at the two-task queue `[demoOk, demoErr]`. -/
theorem runner_submission_order_witness :
    TaskQueue._runner (TaskQueue.submitAll [demoOk, demoErr])
      = [(0, TaskQueue.Resolution.value (pyint 1)),
         (1, TaskQueue.Resolution.exception ⟨"ValueError", "boom"⟩)] := by
  have h := runner_executes_in_submission_order_and_resolves_once [demoOk, demoErr]
    (by intro t ht; fin_cases ht <;> rfl)
  exact h.1

/-- C3: a task whose work raises has the error captured into its future (the
future is resolved with the exception, which is not re-raised on the host
thread), and the drain loop goes on to execute every remaining queued task
exactly as it would have without the failure. -/
theorem runner_captures_task_error_and_continues
    (pre post : List TaskQueue.Task) (t : TaskQueue.Task) (e : TaskQueue.PyExc)
    (hc : t.cancelled = false) (hw : t.work = .error e) :
    TaskQueue._runner (pre ++ t :: post)
      = TaskQueue._runner pre
          ++ (t.tid, TaskQueue.Resolution.exception e) :: TaskQueue._runner post := by
  induction pre with
  | nil => simp [TaskQueue._runner, hc, hw, TaskQueue.resolveWork]
  | cons q qs ih =>
    by_cases hq : q.cancelled <;> simp [TaskQueue._runner, hq, ih]

/-- Witness for C3: the failing middle task resolves with its exception and
the task queued after it still runs. -/
theorem runner_error_isolation_witness :
    TaskQueue._runner [demoOk, demoErr, demoOk2]
      = [(0, TaskQueue.Resolution.value (pyint 1)),
         (1, TaskQueue.Resolution.exception ⟨"ValueError", "boom"⟩),
         (2, TaskQueue.Resolution.value (pyint 2))] := by
  have h := runner_captures_task_error_and_continues [demoOk] [demoOk2] demoErr
    ⟨"ValueError", "boom"⟩ rfl rfl
  simpa [TaskQueue._runner, demoOk, demoOk2, TaskQueue.resolveWork] using h

/-- The streaming request of C1's failing input, processed on an authenticated
connection. -/
def streamingDemo : PMResult :=
  process_message cfg0 csem0 hsem0 ⟨true, Std.real⟩
    (.msg [("id", pystr "7"), ("code", pystr "bpy.ops.mesh.primitive_cube_add()"),
           ("stream", pybool true)])

/-- C1 is violated by the streaming execution mode: processing a streaming
code request performs the `exec` directly inside the connection coroutine
(`Event.ioExec`) on the server's background thread — `task_queue.submit` is
never called and no work runs on the host thread, contradicting both the
claim and `task_queue.py`'s own constraint that anything touching Blender
data must execute on the main thread.  (The handler and non-streaming code
paths do route through the scheduler: see the `Event.submitTask` events in
`dispatch`.) -/
theorem streaming_exec_bypasses_task_scheduler :
    streamingDemo.events
      = [Event.ioExec "bpy.ops.mesh.primitive_cube_add()",
         Event.wrote (SendOutcome.sent (streamTerminal (pystr "7") none))]
    ∧ Event.submitTask ∉ streamingDemo.events
    ∧ ∀ c, Event.hostExec c ∉ streamingDemo.events := by
  refine ⟨rfl, ?_, ?_⟩
  · rw [show streamingDemo.events
        = [Event.ioExec "bpy.ops.mesh.primitive_cube_add()",
           Event.wrote (SendOutcome.sent (streamTerminal (pystr "7") none))] from rfl]
    simp
  · intro c
    rw [show streamingDemo.events
        = [Event.ioExec "bpy.ops.mesh.primitive_cube_add()",
           Event.wrote (SendOutcome.sent (streamTerminal (pystr "7") none))] from rfl]
    simp

/-- Code oracle for code that raises `ValueError('boom')` without writing. -/
def csemRaise : CodeSem := fun _ => ⟨[], some ⟨"ValueError", "boom"⟩⟩

/-- The non-streaming failing request of C6, processed on an authenticated
connection. -/
def c6Demo : PMResult :=
  process_message cfg0 csemRaise hsem0 ⟨true, Std.real⟩
    (.msg [("id", pystr "1"), ("code", pystr "raise ValueError('boom')")])

/-- C6 is violated: a non-streaming code execution that raises does not
produce the `\x7bid, output: null, error\x7d` shape the claim describes.
`execute_code` has no try/except around `exec`, so the exception propagates
through `fut.result()` into `process_message`'s outer `except Exception`,
which answers the generic internal-error frame: the error text is wrapped as
`Internal error: ...`, the `id` field is null instead of echoing `"1"`, and
there is no `output` field at all. -/
theorem code_error_becomes_internal_error_with_null_id :
    c6Demo.response = some (internalErrorResp "boom")
    ∧ dictGet (c6Demo.response.getD pynone) "id" = some pynone
    ∧ dictGet (c6Demo.response.getD pynone) "output" = none
    ∧ c6Demo.response
        ≠ some (pydict [(pystr "id", pystr "1"), (pystr "output", pynone),
                        (pystr "error", pystr "ValueError: boom"),
                        (pystr "stream_end", pybool true)]) := by
  refine ⟨rfl, rfl, rfl, ?_⟩
  intro hcon
  rw [show c6Demo.response = some (internalErrorResp "boom") from rfl] at hcon
  simp [internalErrorResp] at hcon

/-- C10: the non-streaming code path replaces the process-wide `sys.stdout`
with its capture buffer before `exec` and never restores it — after the
request completes, on the success path and on the error path alike,
`sys.stdout` is left pointing at the capture; the streaming path by contrast
restores the previous stream in its `finally`, leaving `sys.stdout` exactly
as it was. -/
theorem nonstreaming_exec_leaves_stdout_captured
    (cfg : Config) (csem : CodeSem) (hsem : HandlerSem) (st : ConnState)
    (m : List (String × PyVal)) (mid cv : PyVal)
    (hauth : st.authenticated = true)
    (hid : lookupKey m "id" = some mid)
    (hnh : lookupKey m "handler" = none)
    (hc : lookupKey m "code" = some cv) :
    (pyTruthy ((lookupKey m "stream").getD (pybool false)) = false →
      (process_message cfg csem hsem st (.msg m)).state.stdout = Std.execCapture)
    ∧ (pyTruthy ((lookupKey m "stream").getD (pybool false)) = true →
      (process_message cfg csem hsem st (.msg m)).state.stdout = st.stdout) := by
  constructor
  · intro hs
    cases houtc : (csem (pyToStr cv)).outcome <;>
      simp [process_message, hid, hauth, dispatch, hnh, hc, hs, houtc]
  · intro hs
    simp [process_message, hid, hauth, dispatch, hnh, hc, hs]

/-- Witness for C10 on the concrete request `print('hi')` (no `stream`
field): afterwards `sys.stdout` is the capture buffer. -/
theorem stdout_left_captured_witness :
    (process_message cfg0 csem0 hsem0 ⟨true, Std.real⟩
        (.msg [("id", pystr "1"), ("code", pystr "print('hi')")])).state.stdout
      = Std.execCapture := by
  exact (nonstreaming_exec_leaves_stdout_captured cfg0 csem0 hsem0 ⟨true, Std.real⟩
    [("id", pystr "1"), ("code", pystr "print('hi')")]
    (pystr "1") (pystr "print('hi')") rfl rfl rfl rfl).1 rfl

/-- C8: with token auth enabled, a well-formed request on an unauthenticated
connection that lacks the `token` field is answered with a response echoing
its id, the error `Authentication required: missing token` and
`authenticated: false`; the connection state is unchanged and the read loop
goes on to process the remaining messages exactly as before, so the
connection stays open for a retry. -/
theorem missing_token_auth_error_keeps_connection_open
    (cfg : Config) (csem : CodeSem) (hsem : HandlerSem) (st : ConnState)
    (m : List (String × PyVal)) (rest : List Incoming) (t : String) (mid : PyVal)
    (htok : cfg.token = some t)
    (hauth : st.authenticated = false)
    (hid : lookupKey m "id" = some mid)
    (hnt : lookupKey m "token" = none) :
    process_message cfg csem hsem st (.msg m)
      = ⟨st, some (authRequiredResp mid), []⟩
    ∧ handle_connection cfg csem hsem st (.msg m :: rest)
      = ⟨some (authRequiredResp mid)
            :: (handle_connection cfg csem hsem st rest).responses,
         (handle_connection cfg csem hsem st rest).events,
         (handle_connection cfg csem hsem st rest).final⟩ := by
  have h1 : process_message cfg csem hsem st (.msg m)
      = ⟨st, some (authRequiredResp mid), []⟩ := by
    simp [process_message, hauth, hid, hnt]
  exact ⟨h1, by simp [handle_connection, h1]⟩

/-- Witness for C8: concrete handler request without `token` on a fresh
connection of the token-enabled server `cfg0`. -/
theorem missing_token_witness :
    process_message cfg0 csem0 hsem0 ⟨false, Std.real⟩
        (.msg [("id", pystr "2"), ("handler", pystr "list_objects"),
               ("params", pydict [])])
      = ⟨⟨false, Std.real⟩, some (authRequiredResp (pystr "2")), []⟩ := by
  exact (missing_token_auth_error_keeps_connection_open cfg0 csem0 hsem0
    ⟨false, Std.real⟩
    [("id", pystr "2"), ("handler", pystr "list_objects"), ("params", pydict [])]
    [] "tok123" (pystr "2") rfl rfl rfl rfl).1

/-- The C9 counterexample input: unauthenticated connection, valid token,
no `code`, no `handler`. -/
def c9Demo : PMResult :=
  process_message cfg0 csem0 hsem0 ⟨false, Std.real⟩
    (.msg [("id", pystr "5"), ("token", pystr "tok123")])

/-- C9 as stated is false: a well-formed request with an id and neither
`code` nor `handler` does not always get the `Missing required field` error —
when it is the message that authenticates the connection, it is answered with
the authentication-success acknowledgement (no `error` field at all).  (No
task is enqueued either way; only the response shape part of the claim
fails.) -/
theorem auth_ack_is_not_missing_field_error :
    c9Demo.response = some (authAckResp (pystr "5") "4.2.0")
    ∧ c9Demo.response ≠ some (missingFieldResp (pystr "5"))
    ∧ dictGet (c9Demo.response.getD pynone) "error" = none
    ∧ c9Demo.events = [] := by
  refine ⟨rfl, ?_, rfl, rfl⟩
  intro hcon
  rw [show c9Demo.response = some (authAckResp (pystr "5") "4.2.0") from rfl] at hcon
  simp [authAckResp, missingFieldResp] at hcon

/-- C9 amended: a well-formed request (with an id) carrying neither `code`
nor `handler` never enqueues anything on the Task Scheduler; it yields the
`Missing required field: either "code" or "handler"` error exactly when the
connection is already authenticated, while on an unauthenticated connection
it instead yields one of the three authentication responses (missing-token
error, invalid-token error, or the authentication-success
acknowledgement). -/
theorem no_code_no_handler_never_enqueues_task
    (cfg : Config) (csem : CodeSem) (hsem : HandlerSem) (st : ConnState)
    (m : List (String × PyVal)) (mid : PyVal)
    (hid : lookupKey m "id" = some mid)
    (hnc : lookupKey m "code" = none)
    (hnh : lookupKey m "handler" = none) :
    (process_message cfg csem hsem st (.msg m)).events = []
    ∧ Event.submitTask ∉ (process_message cfg csem hsem st (.msg m)).events
    ∧ (st.authenticated = true →
        (process_message cfg csem hsem st (.msg m)).response
          = some (missingFieldResp mid))
    ∧ (st.authenticated = false →
        (process_message cfg csem hsem st (.msg m)).response
            = some (authRequiredResp mid)
        ∨ (process_message cfg csem hsem st (.msg m)).response
            = some (authFailedResp mid)
        ∨ (process_message cfg csem hsem st (.msg m)).response
            = some (authAckResp mid cfg.blenderVersion)) := by
  have hev : (process_message cfg csem hsem st (.msg m)).events = [] := by
    cases hauth : st.authenticated
    · cases htok : lookupKey m "token"
      · simp [process_message, hid, hauth, htok]
      case some tok =>
        by_cases hmis : tokenMismatch cfg.token tok <;>
          simp [process_message, hid, hauth, htok, hmis, hnc, hnh]
    · simp [process_message, hid, hauth, dispatch, hnc, hnh]
  refine ⟨hev, by simp [hev], ?_, ?_⟩
  · intro hauth
    simp [process_message, hid, hauth, dispatch, hnc, hnh]
  · intro hauth
    cases htok : lookupKey m "token"
    · exact Or.inl (by simp [process_message, hid, hauth, htok])
    case some tok =>
      by_cases hmis : tokenMismatch cfg.token tok
      · exact Or.inr (Or.inl (by simp [process_message, hid, hauth, htok, hmis]))
      · exact Or.inr (Or.inr (by simp [process_message, hid, hauth, htok, hmis, hnc, hnh]))

/-- Witness for the amended C9 on an authenticated connection: the
missing-field error with no enqueued task. -/
theorem missing_field_witness :
    (process_message cfg0 csem0 hsem0 ⟨true, Std.real⟩
        (.msg [("id", pystr "3")])).events = []
    ∧ (process_message cfg0 csem0 hsem0 ⟨true, Std.real⟩
        (.msg [("id", pystr "3")])).response = some (missingFieldResp (pystr "3")) := by
  have h := no_code_no_handler_never_enqueues_task cfg0 csem0 hsem0 ⟨true, Std.real⟩
    [("id", pystr "3")] (pystr "3") rfl rfl rfl
  exact ⟨h.1, h.2.2.1 rfl⟩

theorem check_none_of_dumps_ok (f : PyVal) (h : dumpsE f = .ok ()) :
    _check_json_serializable f "root" = none := by
  cases f <;> simp_all [_check_json_serializable, dumpsE]

/-- A frame that serializes is written unchanged by `send_response`. -/
theorem send_response_sent_of_serializable (f : PyVal) (h : dumpsE f = .ok ()) :
    send_response f = .sent f := by
  simp [send_response, check_none_of_dumps_ok f h, h]

theorem chunkFrame_serializable (mid : PyVal) (s : String)
    (hmid : dumpsE mid = .ok ()) :
    dumpsE (chunkFrame mid s) = .ok () := by
  simp [chunkFrame, dumpsE, dumpsPairs, hmid]

theorem streamTerminal_serializable (mid : PyVal) (outc : Option TaskQueue.PyExc)
    (hmid : dumpsE mid = .ok ()) :
    dumpsE (streamTerminal mid outc) = .ok () := by
  cases outc <;> simp [streamTerminal, dumpsE, dumpsPairs, hmid]

theorem isChunkFrame_chunk (mid : PyVal) (s : String) :
    isChunkFrame (SendOutcome.sent (chunkFrame mid s)) = true := rfl

theorem isTerminalFrame_chunk (mid : PyVal) (s : String) :
    isTerminalFrame (SendOutcome.sent (chunkFrame mid s)) = false := rfl

theorem chunkTextOf_chunk (mid : PyVal) (s : String) :
    chunkTextOf (SendOutcome.sent (chunkFrame mid s)) = some (rstripNL s) := rfl

theorem isChunkFrame_terminal (mid : PyVal) (outc : Option TaskQueue.PyExc) :
    isChunkFrame (SendOutcome.sent (streamTerminal mid outc)) = false := by
  cases outc <;> rfl

theorem isTerminalFrame_terminal (mid : PyVal) (outc : Option TaskQueue.PyExc) :
    isTerminalFrame (SendOutcome.sent (streamTerminal mid outc)) = true := by
  cases outc <;> rfl

theorem chunkTextOf_terminal (mid : PyVal) (outc : Option TaskQueue.PyExc) :
    chunkTextOf (SendOutcome.sent (streamTerminal mid outc)) = none := by
  cases outc <;> rfl

theorem streaming_chunk_sends (mid : PyVal) (hmid : dumpsE mid = .ok ())
    (ws : List String) :
    ((ws.filterMap (StreamingCapture_write mid)).map send_response).filter isChunkFrame
        = (ws.filterMap (StreamingCapture_write mid)).map send_response
    ∧ ((ws.filterMap (StreamingCapture_write mid)).map send_response).filter isTerminalFrame
        = []
    ∧ ((ws.filterMap (StreamingCapture_write mid)).map send_response).filterMap chunkTextOf
        = (ws.filter nonBlankWrite).map rstripNL
    ∧ ((ws.filterMap (StreamingCapture_write mid)).map send_response).length
        = (ws.filter nonBlankWrite).length := by
  induction ws with
  | nil => exact ⟨rfl, rfl, rfl, rfl⟩
  | cons s ws ih =>
    obtain ⟨ih1, ih2, ih3, ih4⟩ := ih
    by_cases hb : nonBlankWrite s = true
    · have hsend : send_response (chunkFrame mid s) = .sent (chunkFrame mid s) :=
        send_response_sent_of_serializable _ (chunkFrame_serializable mid s hmid)
      simp [StreamingCapture_write, hb, hsend, List.filter, List.filterMap,
        isChunkFrame_chunk, isTerminalFrame_chunk, chunkTextOf_chunk,
        ih1, ih2, ih3, ih4]
    · have hb2 : nonBlankWrite s = false := by simpa using hb
      simp [StreamingCapture_write, hb2, List.filter, List.filterMap,
        ih1, ih2, ih3, ih4]

/-- C4's failing input behaviour: one `write` call whose payload contains two
non-empty lines. -/
def c4Beh : CodeBehavior := ⟨["a\nb\n"], none⟩

/-- C4 as stated is false: the streaming path emits one chunk per non-blank
`write` call, not one per non-empty line.  Executed code that writes the
single payload `"a\nb\n"` (two non-empty lines, N = 2) gets exactly one chunk
message, carrying both lines. -/
theorem single_write_with_two_lines_yields_one_chunk :
    nonEmptyLineCount c4Beh.writes = 2
    ∧ ((execute_code_streaming (pystr "1") c4Beh).filter isChunkFrame).length = 1
    ∧ (execute_code_streaming (pystr "1") c4Beh).filterMap chunkTextOf = ["a\nb"] := by
  exact ⟨rfl, rfl, rfl⟩

/-- C4 amended: for every streaming code-execution request whose id
serializes, the connection is handed exactly one chunk message
(`stream_end: false`) per stdout write call whose payload is non-empty and
not whitespace-only — in write order, each carrying that write's payload with
trailing newlines stripped — followed by exactly one terminal message
(`stream_end: true`), and this holds whether the executed code completes
successfully or raises.  (Chunk sends are scheduled fire-and-forget with
`asyncio.create_task`; the list records frames in the order they were handed
to the send path.) -/
theorem streaming_chunk_per_nonblank_write_then_terminal
    (mid : PyVal) (beh : CodeBehavior) (hmid : dumpsE mid = .ok ()) :
    ((execute_code_streaming mid beh).filter isChunkFrame).length
        = (beh.writes.filter nonBlankWrite).length
    ∧ ((execute_code_streaming mid beh).filter isTerminalFrame).length = 1
    ∧ execute_code_streaming mid beh
        = (execute_code_streaming mid beh).filter isChunkFrame
            ++ (execute_code_streaming mid beh).filter isTerminalFrame
    ∧ (execute_code_streaming mid beh).filterMap chunkTextOf
        = (beh.writes.filter nonBlankWrite).map rstripNL := by
  obtain ⟨h1, h2, h3, h4⟩ := streaming_chunk_sends mid hmid beh.writes
  have hterm : send_response (streamTerminal mid beh.outcome)
      = .sent (streamTerminal mid beh.outcome) :=
    send_response_sent_of_serializable _ (streamTerminal_serializable mid beh.outcome hmid)
  constructor
  · simp [execute_code_streaming, List.filter_append, h1, h2, hterm,
      isChunkFrame_terminal, h4]
  constructor
  · simp [execute_code_streaming, List.filter_append, h2, hterm,
      isTerminalFrame_terminal]
  constructor
  · simp [execute_code_streaming, List.filter_append, h1, h2, hterm,
      isChunkFrame_terminal, isTerminalFrame_terminal]
  · simp [execute_code_streaming, List.filterMap_append, h3, hterm,
      chunkTextOf_terminal]

/-- Witness for the amended C4: code that wrote `hi` then a bare newline and
then raised produces one chunk and one terminal frame. -/
theorem streaming_chunk_witness :
    ((execute_code_streaming (pystr "1")
        ⟨["hi", "\n"], some ⟨"RuntimeError", "x"⟩⟩).filter isChunkFrame).length = 1
    ∧ ((execute_code_streaming (pystr "1")
        ⟨["hi", "\n"], some ⟨"RuntimeError", "x"⟩⟩).filter isTerminalFrame).length = 1 := by
  have h := streaming_chunk_per_nonblank_write_then_terminal (pystr "1")
    ⟨["hi", "\n"], some ⟨"RuntimeError", "x"⟩⟩ rfl
  exact ⟨h.1, h.2.1⟩

/-- C5 amended, part of the statement: responses that go through
`send_response` (the streaming-path send) are validated before transmission —
when the recursive checker localizes a non-serializable value (reporting its
path and type in its message `e`) and the response's own `id` value
serializes, the original payload is replaced by the fallback minimal error
response carrying `JSON serialization error: ` ++ `e`; and responses built by
the dispatcher are serialized directly without that validation — a handler
success response that fails `json.dumps` is replaced by the generic
`Handler ... failed` frame carrying only the encoder's message, with no
path. -/
theorem send_response_localizes_and_falls_back :
    (∀ (resp : PyVal) (e : String),
      _check_json_serializable resp "root" = some e →
      dumpsE ((dictGet resp "id").getD (pystr "unknown")) = .ok () →
      send_response resp = .sentFallback (fallback_response resp e))
    ∧ (∀ (mid : PyVal) (name : String) (hr : HandlerResult) (em : String),
      dumpsE (handlerBuiltResp mid hr) = .error em →
      handler_wire_response mid name (.ok hr) = handlerFailed mid name em) := by
  constructor
  · intro resp e hcheck hid
    have hfb : dumpsE (fallback_response resp e) = .ok () := by
      simp [fallback_response, dumpsE, dumpsPairs, hid]
    simp [send_response, hcheck, hfb]
  · intro mid name hr em hdump
    simp [handler_wire_response, hdump]

/-- Handler oracle returning a result dict that contains a raw Python set. -/
def badHsem : HandlerSem := fun _ _ =>
  .ok ⟨pystr "Found 1 objects", pynone, pydict [(pystr "bad", pyset [])]⟩

/-- The handler request of the C5 counterexample. -/
def c5Demo : PMResult :=
  process_message cfg0 csem0 badHsem ⟨true, Std.real⟩
    (.msg [("id", pystr "9"), ("handler", pystr "list_objects")])

/-- The success response the dispatcher builds for that request before
serializing it. -/
def c5Built : PyVal :=
  handlerBuiltResp (pystr "9")
    ⟨pystr "Found 1 objects", pynone, pydict [(pystr "bad", pyset [])]⟩

/-- C5 as stated is false: not every outgoing response is validated before
transmission.  The dispatcher serializes handler responses directly with
`json.dumps`; for a handler result containing a set, the emitted frame is the
inner `Handler ... failed` response carrying only the encoder's generic
message — had the response gone through the validated send path, the frame
would have been the fallback whose error names the offending path
`root['result']['bad']` and its type. -/
theorem handler_response_bypasses_serializability_check :
    dumpsE c5Built = .error "Object of type set is not JSON serializable"
    ∧ c5Demo.response
        = some (handlerFailed (pystr "9") "list_objects"
            "Object of type set is not JSON serializable")
    ∧ send_response c5Built
        = .sentFallback (fallback_response c5Built
            "Non-serializable object at path 'root['result']['bad']': type set (sets are not JSON serializable)")
    ∧ c5Demo.response
        ≠ some (fallback_response c5Built
            "Non-serializable object at path 'root['result']['bad']': type set (sets are not JSON serializable)") := by
  refine ⟨rfl, rfl, rfl, ?_⟩
  intro hcon
  rw [show c5Demo.response
      = some (handlerFailed (pystr "9") "list_objects"
          "Object of type set is not JSON serializable") from rfl] at hcon
  simp [handlerFailed, fallback_response, c5Built, handlerBuiltResp, dictGet,
    dictGetPairs] at hcon

/-- Witness for the amended C5: a response whose `result` holds a raw Blender
object is replaced on the validated send path by the fallback frame naming
the offending path and type. -/
theorem send_response_fallback_witness :
    send_response (pydict [(pystr "id", pystr "9"),
                           (pystr "result", pyobj "Material")])
      = .sentFallback (pydict [(pystr "id", pystr "9"),
          (pystr "output", pynone),
          (pystr "error", pystr "JSON serialization error: Non-serializable object at path 'root['result']': type Material"),
          (pystr "stream_end", pybool true)]) := by
  exact send_response_localizes_and_falls_back.1
    (pydict [(pystr "id", pystr "9"), (pystr "result", pyobj "Material")])
    "Non-serializable object at path 'root['result']': type Material" rfl rfl

/-- Erasing the `token` field from a parsed message (a parse failure carries
no fields to erase). -/
def removeToken : Incoming → Incoming
  | .invalid e => .invalid e
  | .msg m => .msg (m.filter (fun kv => kv.1 != "token"))

theorem lookupKey_filter_ne (m : List (String × PyVal)) (k : String)
    (hk : k ≠ "token") :
    lookupKey (m.filter (fun kv => kv.1 != "token")) k = lookupKey m k := by
  induction m with
  | nil => rfl
  | cons kv rest ih =>
    obtain ⟨k1, v1⟩ := kv
    by_cases h1 : k1 = "token"
    · subst h1
      have hkk : ("token" : String) ≠ k := fun hh => hk hh.symm
      simp [List.filter_cons, lookupKey, ih, hkk]
    · by_cases h2 : k1 = k <;> simp [List.filter_cons, h1, h2, lookupKey, ih, hk]

theorem handler_wire_no_auth_field (mid : PyVal) (name : String)
    (r : Except TaskQueue.PyExc HandlerResult) :
    dictGet (handler_wire_response mid name r) "authenticated" = none := by
  cases r with
  | error e => rfl
  | ok hr =>
    cases hd : dumpsE (handlerBuiltResp mid hr) with
    | ok u =>
      simp only [handler_wire_response, hd]
      simp [handlerBuiltResp, dictGet, dictGetPairs]
    | error em =>
      simp only [handler_wire_response, hd]
      simp [handlerFailed, dictGet, dictGetPairs]

theorem dispatch_auth_invariants (csem : CodeSem) (hsem : HandlerSem)
    (st : ConnState) (mid : PyVal) (hv cv sv pv : Option PyVal) :
    (dispatch csem hsem st mid hv cv sv pv).state.authenticated = st.authenticated
    ∧ ∀ p, (dispatch csem hsem st mid hv cv sv pv).response = some p →
        dictGet p "authenticated" = none := by
  cases hv with
  | some v =>
    refine ⟨rfl, ?_⟩
    intro p hp
    simp only [dispatch, Option.some.injEq] at hp
    rw [← hp]
    exact handler_wire_no_auth_field mid (pyToStr v) (execute_handler hsem (pyToStr v) (pv.getD (pydict []))).1
  | none =>
    cases cv with
    | some c =>
      by_cases hs : pyTruthy (sv.getD (pybool false)) = true
      · refine ⟨by simp [dispatch, hs], ?_⟩
        intro p hp
        simp [dispatch, hs] at hp
      · have hs2 : pyTruthy (sv.getD (pybool false)) = false := by simpa using hs
        cases ho : (csem (pyToStr c)).outcome with
        | none =>
          refine ⟨by simp [dispatch, hs2, ho], ?_⟩
          intro p hp
          simp only [dispatch, hs2, ho, Bool.false_eq_true, if_false,
            Option.some.injEq] at hp
          rw [← hp]
          simp [dictGet, dictGetPairs]
        | some e =>
          refine ⟨by simp [dispatch, hs2, ho], ?_⟩
          intro p hp
          simp only [dispatch, hs2, ho, Bool.false_eq_true, if_false,
            Option.some.injEq] at hp
          rw [← hp]
          simp [internalErrorResp, dictGet, dictGetPairs]
    | none =>
      refine ⟨rfl, ?_⟩
      intro p hp
      simp only [dispatch, Option.some.injEq] at hp
      rw [← hp]
      simp [missingFieldResp, dictGet, dictGetPairs]

theorem process_message_ignores_token_when_authenticated
    (cfg : Config) (csem : CodeSem) (hsem : HandlerSem) (st : ConnState)
    (i : Incoming) (h : st.authenticated = true) :
    process_message cfg csem hsem st (removeToken i)
      = process_message cfg csem hsem st i
    ∧ (process_message cfg csem hsem st i).state.authenticated = true
    ∧ ∀ p, (process_message cfg csem hsem st i).response = some p →
        dictGet p "authenticated" = none := by
  cases i with
  | invalid e =>
    refine ⟨rfl, by simp [process_message, h], ?_⟩
    intro p hp
    simp only [process_message, Option.some.injEq] at hp
    rw [← hp]
    simp [dictGet, dictGetPairs]
  | msg m =>
    have hid := lookupKey_filter_ne m "id" (by decide)
    have hh := lookupKey_filter_ne m "handler" (by decide)
    have hc := lookupKey_filter_ne m "code" (by decide)
    have hst := lookupKey_filter_ne m "stream" (by decide)
    have hpm := lookupKey_filter_ne m "params" (by decide)
    cases hmid : lookupKey m "id" with
    | none =>
      refine ⟨by simp [process_message, removeToken, hid, hmid], ?_, ?_⟩
      · simp [process_message, hmid, h]
      · intro p hp
        simp only [process_message, hmid, Option.some.injEq] at hp
        rw [← hp]
        simp [dictGet, dictGetPairs]
    | some mid =>
      have hdisp := dispatch_auth_invariants csem hsem st mid (lookupKey m "handler")
        (lookupKey m "code") (lookupKey m "stream") (lookupKey m "params")
      have hpm2 : process_message cfg csem hsem st (.msg m)
          = dispatch csem hsem st mid (lookupKey m "handler") (lookupKey m "code")
              (lookupKey m "stream") (lookupKey m "params") := by
        simp [process_message, hmid, h]
      refine ⟨?_, ?_, ?_⟩
      · rw [hpm2]
        simp [process_message, removeToken, hid, hmid, hh, hc, hst, hpm, h]
      · rw [hpm2, hdisp.1, h]
      · intro p hp
        rw [hpm2] at hp
        exact hdisp.2 p hp

/-- C7: once a connection's `authenticated` flag is true, the token field of
every later message is irrelevant — processing the rest of the connection
with all `token` fields erased produces the same responses, events and final
state — the flag stays true for the connection's remaining lifetime, and no
later message is ever answered with an authentication response (no response
carries an `authenticated` field, which only the auth gate emits). -/
theorem authenticated_flag_persists_and_token_never_rechecked
    (cfg : Config) (csem : CodeSem) (hsem : HandlerSem) (st : ConnState)
    (msgs : List Incoming) (h : st.authenticated = true) :
    handle_connection cfg csem hsem st (msgs.map removeToken)
      = handle_connection cfg csem hsem st msgs
    ∧ (handle_connection cfg csem hsem st msgs).final.authenticated = true
    ∧ ∀ r ∈ (handle_connection cfg csem hsem st msgs).responses,
        ∀ p, r = some p → dictGet p "authenticated" = none := by
  induction msgs generalizing st with
  | nil =>
    refine ⟨rfl, h, ?_⟩
    intro r hr
    simp [handle_connection] at hr
  | cons i rest ih =>
    obtain ⟨heq, hauth, hresp⟩ :=
      process_message_ignores_token_when_authenticated cfg csem hsem st i h
    obtain ⟨ih1, ih2, ih3⟩ := ih (process_message cfg csem hsem st i).state hauth
    refine ⟨?_, ?_, ?_⟩
    · show handle_connection cfg csem hsem st (removeToken i :: rest.map removeToken)
        = handle_connection cfg csem hsem st (i :: rest)
      simp only [handle_connection]
      rw [heq, ih1]
    · simp only [handle_connection]
      exact ih2
    · intro r hr p hp
      simp only [handle_connection] at hr
      rcases List.mem_cons.mp hr with hr1 | hr2
      · rw [hr1] at hp
        exact hresp p hp
      · exact ih3 r hr2 p hp

/-- Witness for C7: an authenticated connection processes a code request
identically with and without its (stale) token field. -/
theorem authenticated_token_irrelevance_witness :
    handle_connection cfg0 csem0 hsem0 ⟨true, Std.real⟩
        ([Incoming.msg [("id", pystr "1"), ("token", pystr "zzz"),
                        ("code", pystr "print('x')")]].map removeToken)
      = handle_connection cfg0 csem0 hsem0 ⟨true, Std.real⟩
          [Incoming.msg [("id", pystr "1"), ("token", pystr "zzz"),
                         ("code", pystr "print('x')")]] := by
  exact (authenticated_flag_persists_and_token_never_rechecked cfg0 csem0 hsem0
    ⟨true, Std.real⟩
    [Incoming.msg [("id", pystr "1"), ("token", pystr "zzz"),
                   ("code", pystr "print('x')")]] rfl).1
